import Mathlib

/-!
Verification of the card-layout PPT generator (`src/main.py`).

The development shallowly embeds the pure content of `main.py`:

* `crop_image_to_ratio` (image fitter) over image dimensions in `ℕ` and
  exact rational arithmetic (`ℚ`) in place of Python floats; `int()` is
  embedded as truncation toward zero (`pyInt`) and `//` as Python floor
  division (Lean's `Int` division `/`, which is Euclidean and agrees with
  floor division on the nonnegative operands that occur here).
* the text-resolution rule, the 24-bit color unpacking, the target-ratio
  selection, the virtual-canvas ("BoxFit: Contain") geometry and the
  canvas-to-page coordinate mapping of `add_cards_on_slide`.
* the chunking / page-assembly loop of `generate_ppt`, with the external
  image decode and re-encode steps abstracted as `Except`-valued oracles
  (they call into PIL); the rendered content of each slide is modelled per
  quadrant (background picture placed or not, resolved text runs).
-/

namespace CardPpt

/-- A PIL image, abstracted to its pixel dimensions (`img.size`). -/
structure Img where
  width : ℕ
  height : ℕ
  deriving DecidableEq, Repr

/-- Python `int()` on a float: truncation toward zero. -/
def pyInt (q : ℚ) : ℤ := if 0 ≤ q then ⌊q⌋ else -⌊-q⌋

/-- The width/height ratio `img_width / img_height` computed by
`crop_image_to_ratio` (exact rational in place of the Python float). -/
def imgRatio (img : Img) : ℚ := (img.width : ℚ) / (img.height : ℚ)

/-- Embedding of `crop_image_to_ratio` (src/main.py lines 40-55), recording
the box `(left, upper, right, lower)` passed to `img.crop`, or `none` when
the image is returned unchanged (ratio already within the 0.01 tolerance).
The width `new_width = int(target_ratio * img_height)` (resp. the height
`new_height = int(img_width / target_ratio)`) truncates, and
`offset = (dim - new_dim) // 2` is Python floor division (both operands are
nonnegative here, so `Int` division agrees with it). -/
def crop_call (img : Img) (target : ℚ) : Option (ℤ × ℤ × ℤ × ℤ) :=
  if |imgRatio img - target| < 1/100 then none
  else if imgRatio img > target then
    some (((img.width : ℤ) - pyInt (target * (img.height : ℚ))) / 2, 0,
      ((img.width : ℤ) - pyInt (target * (img.height : ℚ))) / 2
        + pyInt (target * (img.height : ℚ)), (img.height : ℤ))
  else
    some (0, ((img.height : ℤ) - pyInt ((img.width : ℚ) / target)) / 2, (img.width : ℤ),
      ((img.height : ℤ) - pyInt ((img.width : ℚ) / target)) / 2
        + pyInt ((img.width : ℚ) / target))

/-- The dimensions of the image returned by `crop_image_to_ratio`: a PIL
`crop` with box `(l, u, r, lo)` produces an image of size `(r - l, lo - u)`,
so the horizontal branch returns a `new_width x img_height` image and the
vertical branch an `img_width x new_height` image (see `crop_call_size` for
the agreement with the recorded crop box). -/
def crop_image_to_ratio (img : Img) (target : ℚ) : Img :=
  if |imgRatio img - target| < 1/100 then img
  else if imgRatio img > target then
    ⟨(pyInt (target * (img.height : ℚ))).toNat, img.height⟩
  else
    ⟨img.width, (pyInt ((img.width : ℚ) / target)).toNat⟩

lemma pyInt_of_nonneg (q : ℚ) (h : 0 ≤ q) : pyInt q = ⌊q⌋ := if_pos h

lemma crop_of_close (img : Img) (t : ℚ) (h : |imgRatio img - t| < 1/100) :
    crop_image_to_ratio img t = img := by
  rw [crop_image_to_ratio, if_pos h]

lemma crop_of_wider (img : Img) (t : ℚ) (h1 : ¬ |imgRatio img - t| < 1/100)
    (h2 : imgRatio img > t) :
    crop_image_to_ratio img t = ⟨(pyInt (t * (img.height : ℚ))).toNat, img.height⟩ := by
  rw [crop_image_to_ratio, if_neg h1, if_pos h2]

lemma crop_of_narrower (img : Img) (t : ℚ) (h1 : ¬ |imgRatio img - t| < 1/100)
    (h2 : ¬ imgRatio img > t) :
    crop_image_to_ratio img t = ⟨img.width, (pyInt ((img.width : ℚ) / t)).toNat⟩ := by
  rw [crop_image_to_ratio, if_neg h1, if_neg h2]

/-- Consistency: `crop_image_to_ratio` returns exactly the size of the box recorded by
`crop_call` (and the input when no crop happens). -/
lemma crop_call_size (img : Img) (t : ℚ) :
    (∀ l u r lo, crop_call img t = some (l, u, r, lo) →
      crop_image_to_ratio img t = ⟨(r - l).toNat, (lo - u).toNat⟩) ∧
    (crop_call img t = none → crop_image_to_ratio img t = img) := by
  constructor
  · intro l u r lo hc
    rw [crop_call] at hc
    rw [crop_image_to_ratio]
    by_cases h1 : |imgRatio img - t| < 1/100
    · rw [if_pos h1] at hc
      exact absurd hc (by simp)
    · rw [if_neg h1] at hc
      rw [if_neg h1]
      by_cases h2 : imgRatio img > t
      · rw [if_pos h2] at hc
        rw [if_pos h2]
        simp only [Option.some.injEq, Prod.mk.injEq] at hc
        obtain ⟨hl, hu, hr', hlo⟩ := hc
        subst hl
        subst hu
        subst hr'
        subst hlo
        simp
      · rw [if_neg h2] at hc
        rw [if_neg h2]
        simp only [Option.some.injEq, Prod.mk.injEq] at hc
        obtain ⟨hl, hu, hr', hlo⟩ := hc
        subst hl
        subst hu
        subst hr'
        subst hlo
        simp
  · intro hc
    rw [crop_call] at hc
    by_cases h1 : |imgRatio img - t| < 1/100
    · exact crop_of_close img t h1
    · rw [if_neg h1] at hc
      by_cases h2 : imgRatio img > t
      · rw [if_pos h2] at hc
        exact absurd hc (by simp)
      · rw [if_neg h2] at hc
        exact absurd hc (by simp)

/-- For the horizontal crop the truncated width loses less than one pixel:
`r - 1/h < floor(r*h)/h ≤ r`. -/
lemma floor_width_ratio_bound (h : ℕ) (r : ℚ) (hh : 0 < h) (hr : 0 < r) :
    r - 1 / (h : ℚ) < ((⌊r * (h : ℚ)⌋.toNat : ℕ) : ℚ) / (h : ℚ) ∧
      ((⌊r * (h : ℚ)⌋.toNat : ℕ) : ℚ) / (h : ℚ) ≤ r := by
  have hh0 : (0 : ℚ) < (h : ℚ) := by exact_mod_cast hh
  have hx : (0 : ℚ) ≤ r * (h : ℚ) := by positivity
  have hfl : (0 : ℤ) ≤ ⌊r * (h : ℚ)⌋ := Int.floor_nonneg.mpr hx
  have hcast : ((⌊r * (h : ℚ)⌋.toNat : ℕ) : ℚ) = ((⌊r * (h : ℚ)⌋ : ℤ) : ℚ) := by
    exact_mod_cast Int.toNat_of_nonneg hfl
  constructor
  · have h1 : r * (h : ℚ) - 1 < ((⌊r * (h : ℚ)⌋ : ℤ) : ℚ) := Int.sub_one_lt_floor _
    rw [hcast]
    have : (r * (h : ℚ) - 1) / (h : ℚ) < ((⌊r * (h : ℚ)⌋ : ℤ) : ℚ) / (h : ℚ) := by
      gcongr
    calc r - 1 / (h : ℚ) = (r * (h : ℚ) - 1) / (h : ℚ) := by field_simp
    _ < _ := this
  · rw [hcast]
    have h2 : ((⌊r * (h : ℚ)⌋ : ℤ) : ℚ) ≤ r * (h : ℚ) := Int.floor_le _
    calc ((⌊r * (h : ℚ)⌋ : ℤ) : ℚ) / (h : ℚ) ≤ r * (h : ℚ) / (h : ℚ) := by gcongr
    _ = r := by field_simp

/-- For the vertical crop with truncated height `k ≥ 1` the resulting ratio
overshoots the target by less than `r / k`. -/
lemma floor_height_ratio_bound (w : ℕ) (r : ℚ) (hr : 0 < r) (k : ℕ) (hk : 0 < k)
    (hkdef : (k : ℤ) = ⌊(w : ℚ) / r⌋) :
    r ≤ (w : ℚ) / (k : ℚ) ∧ (w : ℚ) / (k : ℚ) < r + r / (k : ℚ) := by
  have hk0 : (0 : ℚ) < (k : ℚ) := by exact_mod_cast hk
  have hle : ((k : ℤ) : ℚ) ≤ (w : ℚ) / r := hkdef ▸ Int.floor_le _
  have hlt : (w : ℚ) / r < ((k : ℤ) : ℚ) + 1 := hkdef ▸ Int.lt_floor_add_one _
  have hle2 : ((k : ℚ)) ≤ (w : ℚ) / r := by exact_mod_cast hle
  have hlt2 : (w : ℚ) / r < (k : ℚ) + 1 := by exact_mod_cast hlt
  have hle' : (k : ℚ) * r ≤ (w : ℚ) := by
    have h' := (le_div_iff₀ hr).mp hle2
    linarith
  have hlt' : (w : ℚ) < ((k : ℚ) + 1) * r := by
    have h' := (div_lt_iff₀ hr).mp hlt2
    linarith
  constructor
  · rw [le_div_iff₀ hk0]
    nlinarith
  · rw [div_lt_iff₀ hk0]
    have hexp : (r + r / (k : ℚ)) * (k : ℚ) = (k : ℚ) * r + r := by
      field_simp
      ring
    rw [hexp]
    nlinarith

/-- Horizontal crop lands within `1/height` of the target ratio. -/
lemma crop_wider_ratio_close (w h : ℕ) (r : ℚ) (hh : 0 < h) (hr : 0 < r)
    (h1 : ¬ |imgRatio ⟨w, h⟩ - r| < 1/100) (h2 : imgRatio ⟨w, h⟩ > r) :
    |imgRatio (crop_image_to_ratio ⟨w, h⟩ r) - r| < 1 / (h : ℚ) := by
  rw [crop_of_wider _ _ h1 h2]
  have hpy : pyInt (r * ((h : ℕ) : ℚ)) = ⌊r * ((h : ℕ) : ℚ)⌋ :=
    pyInt_of_nonneg _ (by positivity)
  have hb := floor_width_ratio_bound h r hh hr
  have hh0 : (0 : ℚ) < (h : ℚ) := by exact_mod_cast hh
  have hpos : (0 : ℚ) < 1 / (h : ℚ) := by positivity
  simp only [imgRatio, hpy]
  rw [abs_lt]
  exact ⟨by linarith [hb.1], by linarith [hb.2]⟩

/-- C1 (corrected): `crop_image_to_ratio` returns the input unchanged when the
input ratio is within 0.01 of `r`; otherwise it crops one axis, and the exact
guarantee is: cropping horizontally keeps the full height and lands within
`1/height` of `r` (so within 0.01 only once `height ≥ 100`), and cropping
vertically keeps the full width and, when the truncated height `k` is
positive, overshoots `r` by less than `r/k`.  The flat 0.01 bound of the
original claim fails for small images. -/
theorem crop_ratio_property_amended (w h : ℕ) (r : ℚ) (hh : 0 < h) (hr : 0 < r) :
    (|imgRatio ⟨w, h⟩ - r| < 1/100 → crop_image_to_ratio ⟨w, h⟩ r = ⟨w, h⟩) ∧
    (¬ |imgRatio ⟨w, h⟩ - r| < 1/100 → imgRatio ⟨w, h⟩ > r →
      (crop_image_to_ratio ⟨w, h⟩ r).height = h ∧
      |imgRatio (crop_image_to_ratio ⟨w, h⟩ r) - r| < 1 / (h : ℚ)) ∧
    (¬ |imgRatio ⟨w, h⟩ - r| < 1/100 → ¬ imgRatio ⟨w, h⟩ > r →
      (crop_image_to_ratio ⟨w, h⟩ r).width = w ∧
      (0 < (crop_image_to_ratio ⟨w, h⟩ r).height →
        r ≤ imgRatio (crop_image_to_ratio ⟨w, h⟩ r) ∧
        imgRatio (crop_image_to_ratio ⟨w, h⟩ r) <
          r + r / ((crop_image_to_ratio ⟨w, h⟩ r).height : ℚ))) := by
  refine ⟨fun hc => crop_of_close _ _ hc, fun h1 h2 => ?_, fun h1 h2 => ?_⟩
  · refine ⟨?_, crop_wider_ratio_close w h r hh hr h1 h2⟩
    rw [crop_of_wider _ _ h1 h2]
  · rw [crop_of_narrower _ _ h1 h2]
    refine ⟨rfl, fun hkpos => ?_⟩
    have hwr : (0 : ℚ) ≤ ((w : ℕ) : ℚ) / r := by positivity
    have hpy : pyInt (((w : ℕ) : ℚ) / r) = ⌊((w : ℕ) : ℚ) / r⌋ := pyInt_of_nonneg _ hwr
    simp only [hpy] at hkpos ⊢
    have hfl : (0 : ℤ) ≤ ⌊((w : ℕ) : ℚ) / r⌋ := Int.floor_nonneg.mpr hwr
    have hkdef : ((⌊((w : ℕ) : ℚ) / r⌋.toNat : ℕ) : ℤ) = ⌊((w : ℕ) : ℚ) / r⌋ :=
      Int.toNat_of_nonneg hfl
    have hbd := floor_height_ratio_bound w r hr (⌊((w : ℕ) : ℚ) / r⌋.toNat) hkpos hkdef
    simp only [imgRatio]
    exact hbd

/-- Witness for `crop_ratio_property_amended` at the 300 x 100 image with
target ratio 5/4 (horizontal crop to 125 x 100, ratio error 0 < 0.01). -/
theorem crop_ratio_property_amended_w :
    (crop_image_to_ratio ⟨300, 100⟩ (5/4)).height = 100 ∧
    |imgRatio (crop_image_to_ratio ⟨300, 100⟩ (5/4)) - 5/4| < 1/100 := by
  have h := (crop_ratio_property_amended 300 100 (5/4) (by norm_num) (by norm_num)).2.1
    (by norm_num [imgRatio, abs_lt]) (by norm_num [imgRatio])
  refine ⟨h.1, lt_of_lt_of_le h.2 (by norm_num)⟩

/-- C1 counterexample: the 50 x 10 image with target ratio 5/4 is cropped to
12 x 10 (ratio 1.2, off the target by 0.05), so the output is neither within
0.01 of the target nor the unchanged input. -/
theorem crop_ratio_property_cex :
    ¬ (|imgRatio (crop_image_to_ratio ⟨50, 10⟩ (5/4)) - 5/4| < 1/100 ∨
       (crop_image_to_ratio ⟨50, 10⟩ (5/4) = ⟨50, 10⟩ ∧
        |imgRatio ⟨50, 10⟩ - 5/4| < 1/100)) := by
  have hc : crop_image_to_ratio ⟨50, 10⟩ (5/4) = ⟨12, 10⟩ := by
    rw [crop_of_wider ⟨50, 10⟩ (5/4) (by norm_num [imgRatio, abs_lt])
      (by norm_num [imgRatio])]
    norm_num [pyInt]
    rfl
  rw [hc]
  norm_num [imgRatio, abs_lt]

/-- C2 (corrected): when the source ratio exceeds the target by at least the
0.01 tolerance, the crop acts only on the horizontal axis: the crop box keeps
the full height (`upper = 0`, `lower = height`), the new width is the
TRUNCATION `int(target_ratio * height)` (not round-to-nearest), and the left
offset is `(width - new_width) // 2`. -/
theorem crop_wider_axis_amended (w h : ℕ) (r : ℚ) (hh : 0 < h) (hr : 0 < r)
    (hex : imgRatio ⟨w, h⟩ - r ≥ 1/100) :
    ∃ off nw : ℤ, nw = pyInt (r * (h : ℚ)) ∧ off = ((w : ℤ) - nw) / 2 ∧
      crop_call ⟨w, h⟩ r = some (off, 0, off + nw, (h : ℤ)) ∧
      crop_image_to_ratio ⟨w, h⟩ r = ⟨nw.toNat, h⟩ := by
  have h1 : ¬ |imgRatio ⟨w, h⟩ - r| < 1/100 := by
    rw [not_lt]
    calc (1/100 : ℚ) ≤ imgRatio ⟨w, h⟩ - r := hex
    _ ≤ |imgRatio ⟨w, h⟩ - r| := le_abs_self _
  have h2 : imgRatio ⟨w, h⟩ > r := by
    have : (0 : ℚ) < 1/100 := by norm_num
    linarith [hex]
  refine ⟨((w : ℤ) - pyInt (r * (h : ℚ))) / 2, pyInt (r * (h : ℚ)), rfl, rfl, ?_, ?_⟩
  · rw [crop_call, if_neg h1, if_pos h2]
  · rw [crop_of_wider _ _ h1 h2]

/-- Witness for `crop_wider_axis_amended`: the 30 x 10 image at target ratio
3/2 is cropped to 15 x 10. -/
theorem crop_wider_axis_amended_w :
    crop_image_to_ratio ⟨30, 10⟩ (3/2) = ⟨15, 10⟩ := by
  obtain ⟨off, nw, hnw, hoff, hcall, hout⟩ :=
    crop_wider_axis_amended 30 10 (3/2) (by norm_num) (by norm_num)
      (by norm_num [imgRatio])
  rw [hout, hnw]
  norm_num [pyInt]
  rfl

/-- C2 counterexample: the 30 x 10 image at target ratio 27/16 = 1.6875
(which the source ratio 3 exceeds by more than 0.01) is cropped to width
`int(16.875) = 16`, not `round(16.875) = 17` as the claim states. -/
theorem crop_wider_axis_cex :
    imgRatio ⟨30, 10⟩ - 27/16 ≥ 1/100 ∧
    (crop_image_to_ratio ⟨30, 10⟩ (27/16)).width = 16 ∧
    ((crop_image_to_ratio ⟨30, 10⟩ (27/16)).width : ℤ) ≠ round ((27/16 : ℚ) * 10) := by
  have hc : crop_image_to_ratio ⟨30, 10⟩ (27/16) = ⟨16, 10⟩ := by
    rw [crop_of_wider ⟨30, 10⟩ (27/16) (by norm_num [imgRatio, abs_lt])
      (by norm_num [imgRatio])]
    norm_num [pyInt]
    rfl
  rw [hc]
  refine ⟨by norm_num [imgRatio], rfl, ?_⟩
  rw [round_eq]
  norm_num

/-- C3 (corrected): applying the fitter twice equals applying it once whenever
the first application's output ratio is within 0.01 of the target; in
particular this holds whenever the source is at least as wide as the target
ratio and its height is at least 100 pixels, but it fails for small images. -/
theorem crop_idempotent_amended (w h : ℕ) (r : ℚ) (hh : 0 < h) (hr : 0 < r)
    (hcase : (100 ≤ h ∧ r ≤ imgRatio ⟨w, h⟩) ∨
      |imgRatio (crop_image_to_ratio ⟨w, h⟩ r) - r| < 1/100) :
    crop_image_to_ratio (crop_image_to_ratio ⟨w, h⟩ r) r = crop_image_to_ratio ⟨w, h⟩ r := by
  rcases hcase with ⟨h100, hwide⟩ | hclose
  · by_cases hc : |imgRatio ⟨w, h⟩ - r| < 1/100
    · rw [crop_of_close _ _ hc, crop_of_close _ _ hc]
    · have h2 : imgRatio ⟨w, h⟩ > r := by
        rcases lt_or_eq_of_le hwide with h' | h'
        · exact h'
        · exfalso
          apply hc
          rw [← h', sub_self, abs_zero]
          norm_num
      have hb := crop_wider_ratio_close w h r hh hr hc h2
      apply crop_of_close
      have hle : 1 / (h : ℚ) ≤ 1/100 := by
        have hh0 : (0 : ℚ) < 100 := by norm_num
        have h100' : (100 : ℚ) ≤ (h : ℚ) := by exact_mod_cast h100
        exact one_div_le_one_div_of_le hh0 h100'
      exact lt_of_lt_of_le hb hle
  · exact crop_of_close _ _ hclose

/-- Witness for `crop_idempotent_amended` at the 300 x 100 image with target
ratio 5/4. -/
theorem crop_idempotent_amended_w :
    crop_image_to_ratio (crop_image_to_ratio ⟨300, 100⟩ (5/4)) (5/4) =
      crop_image_to_ratio ⟨300, 100⟩ (5/4) :=
  crop_idempotent_amended 300 100 (5/4) (by norm_num) (by norm_num)
    (Or.inl ⟨by norm_num, by norm_num [imgRatio]⟩)

/-- C3 counterexample: the 50 x 10 image at target ratio 5/4 is cropped to
12 x 10, and a second application crops again to 12 x 9, so `fit` is not
idempotent. -/
theorem crop_idempotent_cex :
    crop_image_to_ratio (crop_image_to_ratio ⟨50, 10⟩ (5/4)) (5/4) ≠
      crop_image_to_ratio ⟨50, 10⟩ (5/4) := by
  have h1 : crop_image_to_ratio ⟨50, 10⟩ (5/4) = ⟨12, 10⟩ := by
    rw [crop_of_wider ⟨50, 10⟩ (5/4) (by norm_num [imgRatio, abs_lt])
      (by norm_num [imgRatio])]
    norm_num [pyInt]
    rfl
  have h2 : crop_image_to_ratio ⟨12, 10⟩ (5/4) = ⟨12, 9⟩ := by
    rw [crop_of_narrower ⟨12, 10⟩ (5/4) (by norm_num [imgRatio, abs_lt])
      (by norm_num [imgRatio])]
    norm_num [pyInt]
    rfl
  rw [h1, h2]
  decide

/-! ## Request data model (Pydantic models of src/main.py lines 17-36) -/

/-- The `CenterPosition` model (canvas-space offset from the canvas center, y-up). -/
structure CenterPosition where
  dx : ℚ
  dy : ℚ
  deriving DecidableEq, Repr

/-- The `TextItem` template model (exact rationals in place of the Python floats). -/
structure TextItem where
  id : String
  text : String
  center_position : CenterPosition
  font_size_pt : ℚ
  measured_height_pt : Option ℚ
  color_value : ℕ
  font_weight_bold : Bool
  font_family : Option String
  deriving DecidableEq, Repr

/-- A data row (`excel_data` entry): a Python `Dict[str, str]`, modelled as an
association list with the first binding of a key the authoritative one. -/
def Row : Type := List (String × String)

/-- Python `d.get(key, default)`. -/
def pyGet (d : Row) (key fallback : String) : String :=
  match List.lookup key d with
  | some v => v
  | none => fallback

/-- Text-content resolution of `add_cards_on_slide` (src/main.py lines
116-123): a `"title"` item shows the row's `"name"` (default `""`), a
`"subtitle"` item the row's `"group"` (default `""`), anything else its own
literal `text`. -/
def resolve_text (item : TextItem) (card_data : Row) : String :=
  if item.id = "title" then pyGet card_data "name" ""
  else if item.id = "subtitle" then pyGet card_data "group" ""
  else item.text

/-- C5 (confirmed): the resolved display text is the row's `"name"` for the
`"title"` identifier, the row's `"group"` for `"subtitle"`, and the
template's literal `text` field for any other identifier, regardless of the
row's contents. -/
theorem resolve_text_rule (item : TextItem) (card_data : Row) :
    (∀ v, item.id = "title" → List.lookup "name" card_data = some v →
      resolve_text item card_data = v) ∧
    (∀ v, item.id = "subtitle" → List.lookup "group" card_data = some v →
      resolve_text item card_data = v) ∧
    (item.id ≠ "title" → item.id ≠ "subtitle" →
      resolve_text item card_data = item.text) := by
  refine ⟨fun v hid hv => ?_, fun v hid hv => ?_, fun h1 h2 => ?_⟩
  · rw [resolve_text, if_pos hid, pyGet, hv]
  · have hne : item.id ≠ "title" := by rw [hid]; decide
    rw [resolve_text, if_neg hne, if_pos hid, pyGet, hv]
  · rw [resolve_text, if_neg h1, if_neg h2]

/-- Witness for `resolve_text_rule`: the spec's own example, a `"title"`
template with the row `[("name", "Ada"), ("group", "Eng")]` resolves to
`"Ada"`, a `"subtitle"` one to `"Eng"`, and an id of `"footer"` keeps its
literal text. -/
theorem resolve_text_rule_w :
    resolve_text ⟨"title", "lit", ⟨0, 0⟩, 20, none, 0, false, none⟩
        [("name", "Ada"), ("group", "Eng")] = "Ada" ∧
    resolve_text ⟨"subtitle", "lit", ⟨0, 0⟩, 20, none, 0, false, none⟩
        [("name", "Ada"), ("group", "Eng")] = "Eng" ∧
    resolve_text ⟨"footer", "lit", ⟨0, 0⟩, 20, none, 0, false, none⟩
        [("name", "Ada"), ("group", "Eng")] = "lit" := by
  exact ⟨(resolve_text_rule _ _).1 "Ada" rfl rfl,
    (resolve_text_rule _ _).2.1 "Eng" rfl (by rfl),
    (resolve_text_rule _ _).2.2 (by decide) (by decide)⟩

/-- C10 (confirmed): `card_data.get(...)` with a missing key falls back to the
empty string, and resolution is total (no exception path exists in the
embedding). -/
theorem resolve_text_missing_key (item : TextItem) (card_data : Row) :
    (item.id = "title" → List.lookup "name" card_data = none →
      resolve_text item card_data = "") ∧
    (item.id = "subtitle" → List.lookup "group" card_data = none →
      resolve_text item card_data = "") := by
  refine ⟨fun hid hv => ?_, fun hid hv => ?_⟩
  · rw [resolve_text, if_pos hid, pyGet, hv]
  · have hne : item.id ≠ "title" := by rw [hid]; decide
    rw [resolve_text, if_neg hne, if_pos hid, pyGet, hv]

/-- Witness for `resolve_text_missing_key`: rows without the expected key
resolve to `""`. -/
theorem resolve_text_missing_key_w :
    resolve_text ⟨"title", "lit", ⟨0, 0⟩, 20, none, 0, false, none⟩
        [("group", "Eng")] = "" ∧
    resolve_text ⟨"subtitle", "lit", ⟨0, 0⟩, 20, none, 0, false, none⟩
        [("name", "Ada")] = "" :=
  ⟨(resolve_text_missing_key _ _).1 rfl rfl,
   (resolve_text_missing_key _ _).2 rfl rfl⟩

/-! ## Color unpacking (src/main.py lines 188-189) -/

/-- The `RGBColor((color_val >> 16) & 0xFF, (color_val >> 8) & 0xFF,
color_val & 0xFF)` triple applied to the text run's font. -/
def font_color_rgb (color_val : ℕ) : ℕ × ℕ × ℕ :=
  ((color_val >>> 16) &&& 0xFF, (color_val >>> 8) &&& 0xFF, color_val &&& 0xFF)

/-- C6 (confirmed): the color triple extracts red from bits 16-23, green from
bits 8-15 and blue from bits 0-7 of the 24-bit color integer; in particular
`0xFF00FF` gives (255, 0, 255), `0x000000` black, `0xFFFFFF` white. -/
theorem font_color_unpack (v : ℕ) (hv : v < 2 ^ 24) :
    font_color_rgb v = (v / 2 ^ 16 % 2 ^ 8, v / 2 ^ 8 % 2 ^ 8, v % 2 ^ 8) ∧
    font_color_rgb 0xFF00FF = (255, 0, 255) ∧
    font_color_rgb 0x000000 = (0, 0, 0) ∧
    font_color_rgb 0xFFFFFF = (255, 255, 255) := by
  refine ⟨?_, by decide, by decide, by decide⟩
  rw [font_color_rgb]
  have h16 : v >>> 16 = v / 2 ^ 16 := Nat.shiftRight_eq_div_pow v 16
  have h8 : v >>> 8 = v / 2 ^ 8 := Nat.shiftRight_eq_div_pow v 8
  have hand : ∀ n : ℕ, n &&& 0xFF = n % 2 ^ 8 := fun n => Nat.and_pow_two_sub_one_eq_mod n 8
  rw [h16, h8, hand, hand, hand]

/-- Witness for `font_color_unpack` at `0xFF00FF`. -/
theorem font_color_unpack_w :
    font_color_rgb 0xFF00FF =
      (0xFF00FF / 2 ^ 16 % 2 ^ 8, 0xFF00FF / 2 ^ 8 % 2 ^ 8, 0xFF00FF % 2 ^ 8) :=
  (font_color_unpack 0xFF00FF (by decide)).1

/-! ## Target aspect ratio selection (src/main.py lines 196-210) -/

/-- A4 slide width set by `generate_ppt` (`Inches(8.27)`). -/
def page_width_inch : ℚ := 827 / 100

/-- A4 slide height set by `generate_ppt` (`Inches(11.69)`). -/
def page_height_inch : ℚ := 1169 / 100

/-- The fallback `default_card_ratio = (page_width / 2) / (page_height / 2)`. -/
def default_card_ratio : ℚ := (page_width_inch / 2) / (page_height_inch / 2)

/-- The `target_ratio` selection of `generate_ppt` (src/main.py lines 208-210):
the request's `canvas_aspect_ratio` when present and positive, else the
derived quadrant ratio. -/
def compute_target_ratio (car : Option ℚ) : ℚ :=
  match car with
  | none => default_card_ratio
  | some v => if v > 0 then v else default_card_ratio

/-- C7 (confirmed): the crop/fit target ratio is the declared
`canvasAspectRatio` whenever present and positive, and otherwise the derived
one-quadrant ratio `(8.27/2) / (11.69/2)` of the fixed A4 page. -/
theorem target_ratio_selection (v : ℚ) :
    (0 < v → compute_target_ratio (some v) = v) ∧
    (v ≤ 0 → compute_target_ratio (some v) = (827/100 / 2) / (1169/100 / 2)) ∧
    compute_target_ratio none = (827/100 / 2) / (1169/100 / 2) := by
  refine ⟨fun hv => ?_, fun hv => ?_, rfl⟩
  · rw [compute_target_ratio]
    exact if_pos hv
  · rw [compute_target_ratio]
    exact if_neg (by linarith)

/-- Witness for `target_ratio_selection`: a declared ratio of 3/2 is used
verbatim, a declared ratio of 0 falls back to the quadrant ratio. -/
theorem target_ratio_selection_w :
    compute_target_ratio (some (3/2)) = 3/2 ∧
    compute_target_ratio (some 0) = (827/100 / 2) / (1169/100 / 2) :=
  ⟨(target_ratio_selection (3/2)).1 (by norm_num),
   (target_ratio_selection 0).2.1 le_rfl⟩

/-! ## Virtual canvas and canvas-to-page text geometry
(src/main.py lines 58-151) -/

/-- Half-page grid cell width (`grid_width_inch = page_width_inch / 2`). -/
def grid_width_inch : ℚ := page_width_inch / 2

/-- Half-page grid cell height (`grid_height_inch = page_height_inch / 2`). -/
def grid_height_inch : ℚ := page_height_inch / 2

/-- The "virtual canvas" (BoxFit-Contain rectangle) a card's background is
drawn in, relative to its grid cell (src/main.py lines 78-94). -/
structure VirtualCanvas where
  final_pic_width_inch : ℚ
  final_pic_height_inch : ℚ
  pic_left_offset_inch : ℚ
  pic_top_offset_inch : ℚ
  deriving DecidableEq, Repr

/-- Computation of the virtual canvas from the target card ratio. -/
def virtual_canvas (target_card : ℚ) : VirtualCanvas :=
  if target_card > grid_width_inch / grid_height_inch then
    { final_pic_width_inch := grid_width_inch,
      final_pic_height_inch := grid_width_inch / target_card,
      pic_left_offset_inch := 0,
      pic_top_offset_inch := (grid_height_inch - grid_width_inch / target_card) / 2 }
  else if target_card < grid_width_inch / grid_height_inch then
    { final_pic_width_inch := grid_height_inch * target_card,
      final_pic_height_inch := grid_height_inch,
      pic_left_offset_inch := (grid_width_inch - grid_height_inch * target_card) / 2,
      pic_top_offset_inch := 0 }
  else
    { final_pic_width_inch := grid_width_inch,
      final_pic_height_inch := grid_height_inch,
      pic_left_offset_inch := 0,
      pic_top_offset_inch := 0 }

/-- Python `item.measured_height_pt or font_size_pt` (falsy on `None` and on
`0.0`). -/
def measured_or_font_size (item : TextItem) : ℚ :=
  match item.measured_height_pt with
  | none => item.font_size_pt
  | some m => if m = 0 then item.font_size_pt else m

/-- The absolute page-space rectangle passed to `add_textbox`. -/
structure BoxRect where
  left_inch : ℚ
  top_inch : ℚ
  width_inch : ℚ
  height_inch : ℚ
  deriving DecidableEq, Repr

/-- Text-box geometry of `add_cards_on_slide` (src/main.py lines 108-151):
canvas pixels to page inches through the virtual-canvas pixel-per-inch
ratios, center anchor `(canvas_w/2 + dx, canvas_h/2 - dy)`, box size 95% of
the canvas width by `measured_height * (96/72) * 1.2`. -/
def text_box_rect (canvas_width_px canvas_height_px : ℚ) (vc : VirtualCanvas)
    (grid_left_inch grid_top_inch : ℚ) (item : TextItem) : BoxRect :=
  let pixels_per_inch_w := canvas_width_px / vc.final_pic_width_inch
  let pixels_per_inch_h := canvas_height_px / vc.final_pic_height_inch
  let center_x_abs_px := canvas_width_px / 2 + item.center_position.dx
  let center_y_abs_px := canvas_height_px / 2 - item.center_position.dy
  let box_width_px := canvas_width_px * (95 / 100)
  let box_height_px := measured_or_font_size item * (96 / 72) * (12 / 10)
  let left_rel_inch := (center_x_abs_px - box_width_px / 2) / pixels_per_inch_w
  let top_rel_inch := (center_y_abs_px - box_height_px / 2) / pixels_per_inch_h
  { left_inch := grid_left_inch + vc.pic_left_offset_inch + left_rel_inch,
    top_inch := grid_top_inch + vc.pic_top_offset_inch + top_rel_inch,
    width_inch := box_width_px / pixels_per_inch_w,
    height_inch := box_height_px / pixels_per_inch_h }

/-- C8 (confirmed): the conversion anchors the box center at
`canvas_w/2 + dx` and `canvas_h/2 - dy` (dy subtracted, not added) before
projecting to page units, so the box center in page space is the projected
anchor and a larger canvas-space `dy` yields a strictly smaller page-space
`top` (y-up canvas to y-down page). -/
theorem canvas_to_page_mapping (cw ch : ℚ) (vc : VirtualCanvas) (gl gt : ℚ)
    (item : TextItem) (dy2 : ℚ) (hch : 0 < ch)
    (hvh : 0 < vc.final_pic_height_inch) (hdy : item.center_position.dy < dy2) :
    ((text_box_rect cw ch vc gl gt item).left_inch +
        (text_box_rect cw ch vc gl gt item).width_inch / 2 =
      gl + vc.pic_left_offset_inch +
        (cw / 2 + item.center_position.dx) / (cw / vc.final_pic_width_inch)) ∧
    ((text_box_rect cw ch vc gl gt item).top_inch +
        (text_box_rect cw ch vc gl gt item).height_inch / 2 =
      gt + vc.pic_top_offset_inch +
        (ch / 2 - item.center_position.dy) / (ch / vc.final_pic_height_inch)) ∧
    ((text_box_rect cw ch vc gl gt
        { item with center_position := ⟨item.center_position.dx, dy2⟩ }).top_inch <
      (text_box_rect cw ch vc gl gt item).top_inch) := by
  have hpph : 0 < ch / vc.final_pic_height_inch := div_pos hch hvh
  refine ⟨?_, ?_, ?_⟩
  · simp only [text_box_rect]
    ring
  · simp only [text_box_rect]
    ring
  · have hm : measured_or_font_size
        { item with center_position := ⟨item.center_position.dx, dy2⟩ } =
        measured_or_font_size item := rfl
    simp only [text_box_rect, hm]
    apply add_lt_add_left
    rw [div_lt_div_iff_of_pos_right hpph]
    linarith

/-- Witness for `canvas_to_page_mapping`: on a 1000 x 1000 canvas projected
into a 4 x 3 inch virtual canvas, raising a text item from dy = 0 to
dy = 10 strictly lowers its page-space top. -/
theorem canvas_to_page_mapping_w :
    (text_box_rect 1000 1000 ⟨4, 3, 0, 1/2⟩ 0 0
        ⟨"title", "t", ⟨0, 10⟩, 20, none, 0, false, none⟩).top_inch <
      (text_box_rect 1000 1000 ⟨4, 3, 0, 1/2⟩ 0 0
        ⟨"title", "t", ⟨0, 0⟩, 20, none, 0, false, none⟩).top_inch :=
  (canvas_to_page_mapping 1000 1000 ⟨4, 3, 0, 1/2⟩ 0 0
    ⟨"title", "t", ⟨0, 0⟩, 20, none, 0, false, none⟩ 10 (by norm_num) (by norm_num)
    (by norm_num)).2.2

/-! ## Page assembly (src/main.py lines 192-243) -/

/-- The chunking `[excel_data[i:i+4] for i in range(0, len(excel_data), 4)]`
of `generate_ppt` (src/main.py line 200). -/
def chunkList {α : Type} : List α → List (List α)
  | [] => []
  | a :: l => ((a :: l).take 4) :: chunkList ((a :: l).drop 4)
termination_by l => l.length
decreasing_by simp [List.length_drop]; omega

/-- The content rendered into one quadrant of a slide: whether `add_picture`
was called for it, and the resolved text of each `add_textbox` in template
order. -/
structure QuadrantRender where
  picture : Bool
  texts : List String
  deriving DecidableEq, Repr

/-- The state of `cropped_background_stream` after the try block of
`generate_ppt` (src/main.py lines 213-224).  Crucially, line 220 assigns
`io.BytesIO()` BEFORE `cropped_image.save(...)` on line 221, so when `save`
raises, the except clause leaves the variable bound to a truthy `BytesIO`
that holds no decodable image: that is `BgStream.broken`.  A successful save
leaves a stream holding the cropped image (`BgStream.ready`). -/
inductive BgStream
  | broken
  | ready (img : Img)
  deriving DecidableEq, Repr

/-- The request model `CanvasData` (src/main.py lines 31-36). -/
structure CanvasData where
  background_image_bytes : Option String
  canvas_size_width : ℚ
  canvas_size_height : ℚ
  canvas_aspect_ratio : Option ℚ
  text_items : List TextItem
  excel_data : List Row

/-- The background pipeline of `generate_ppt` (src/main.py lines 213-224):
the `decode` oracle stands for `b64decode` + `Image.open` (and any failure
raised before line 220, including a crop error — all of these leave the
stream variable still `None`); the `save` oracle stands for
`cropped_image.save`.  Because the `BytesIO` is assigned before `save`, a
`save` failure is caught but leaves the truthy broken stream behind
(`some BgStream.broken`), not `None`.  An absent or empty (falsy) base64
string skips the block. -/
def process_background (bg : Option String) (decode : String → Except String Img)
    (save : Img → Except String Unit) (target : ℚ) : Option BgStream :=
  match bg with
  | none => none
  | some s =>
    if s.isEmpty then none
    else
      match decode s with
      | Except.error _ => none
      | Except.ok img =>
        match save (crop_image_to_ratio img target) with
        | Except.error _ => some BgStream.broken
        | Except.ok _ => some (BgStream.ready (crop_image_to_ratio img target))

/-- What the loop body of `add_cards_on_slide` (src/main.py lines 75-189)
does for quadrant `i`: nothing when the chunk has no row `i` (the loop does
not reach that grid position); otherwise, when a stream is present
(`if cropped_background_stream:` is True for both `ready` and `broken`,
since a `BytesIO` is always truthy), `add_picture` reads it — raising
`UnrecognizedImageError` on a broken stream, which nothing catches — and
then one text box per template is added. -/
def renderQuadrant (templates : List TextItem) (bg : Option BgStream) :
    Option Row → Except String QuadrantRender
  | none => Except.ok { picture := false, texts := [] }
  | some row =>
    match bg with
    | some BgStream.broken => Except.error "UnrecognizedImageError"
    | some (BgStream.ready _) =>
      Except.ok { picture := true, texts := templates.map (fun t => resolve_text t row) }
    | none =>
      Except.ok { picture := false, texts := templates.map (fun t => resolve_text t row) }

/-- Left-to-right effectful map: the first raised exception aborts the whole
request (spec section 7: all-or-nothing, no partial output). -/
def exceptMap {α β : Type} (f : α → Except String β) : List α → Except String (List β)
  | [] => Except.ok []
  | a :: l =>
    match f a with
    | Except.error e => Except.error e
    | Except.ok b =>
      match exceptMap f l with
      | Except.error e => Except.error e
      | Except.ok bs => Except.ok (b :: bs)

/-- One slide produced by `add_cards_on_slide`: the four grid quadrants in
`grid_positions` order (top-left, top-right, bottom-left, bottom-right). -/
def renderSlide (templates : List TextItem) (bg : Option BgStream) (chunk : List Row) :
    Except String (List QuadrantRender) :=
  exceptMap (fun i => renderQuadrant templates bg chunk[i]?) (List.range 4)

/-- The `generate_ppt` assembly (src/main.py lines 192-243): one slide per
chunk of 4 rows, all sharing the same background stream and templates; an
exception raised while filling any slide propagates out of the endpoint and
no document is returned. -/
def generate_ppt (data : CanvasData) (decode : String → Except String Img)
    (save : Img → Except String Unit) : Except String (List (List QuadrantRender)) :=
  exceptMap
    (renderSlide data.text_items
      (process_background data.background_image_bytes decode save
        (compute_target_ratio data.canvas_aspect_ratio)))
    (chunkList data.excel_data)

/-- The content a quadrant receives when the stream is not broken. -/
def quadrantContent (templates : List TextItem) (hasPic : Bool) :
    Option Row → QuadrantRender
  | none => { picture := false, texts := [] }
  | some row => { picture := hasPic, texts := templates.map (fun t => resolve_text t row) }

/-- The slide contents in the non-broken case. -/
def slideContent (templates : List TextItem) (hasPic : Bool) (chunk : List Row) :
    List QuadrantRender :=
  (List.range 4).map (fun i => quadrantContent templates hasPic chunk[i]?)

lemma chunkList_nil {α : Type} : chunkList ([] : List α) = [] := by
  simp [chunkList]

lemma chunkList_cons {α : Type} (a : α) (l : List α) :
    chunkList (a :: l) = ((a :: l).take 4) :: chunkList ((a :: l).drop 4) := by
  rw [chunkList]

lemma chunkList_length {α : Type} (l : List α) :
    (chunkList l).length = (l.length + 3) / 4 := by
  suffices h : ∀ n (l : List α), l.length ≤ n →
      (chunkList l).length = (l.length + 3) / 4 from h l.length l le_rfl
  intro n
  induction n with
  | zero =>
    intro l hl
    obtain rfl := List.length_eq_zero.mp (Nat.le_zero.mp hl)
    simp [chunkList]
  | succ n ih =>
    intro l hl
    cases l with
    | nil => simp [chunkList]
    | cons a t =>
      rw [chunkList_cons]
      have hlen : ((a :: t).drop 4).length ≤ n := by
        simp only [List.length_drop, List.length_cons]
        simp only [List.length_cons] at hl
        omega
      rw [List.length_cons, ih _ hlen]
      simp only [List.length_drop, List.length_cons]
      omega

lemma chunkList_ne_nil {α : Type} (l : List α) (h : l ≠ []) : chunkList l ≠ [] := by
  cases l with
  | nil => exact absurd rfl h
  | cons a t =>
    rw [chunkList_cons]
    simp

lemma chunkList_getLast_len {α : Type} (l : List α) (hne : l ≠ []) :
    ∃ ck, (chunkList l).getLast? = some ck ∧
      ck.length = (if l.length % 4 = 0 then 4 else l.length % 4) := by
  suffices h : ∀ n (l : List α), l.length ≤ n → l ≠ [] →
      ∃ ck, (chunkList l).getLast? = some ck ∧
        ck.length = (if l.length % 4 = 0 then 4 else l.length % 4) from
    h l.length l le_rfl hne
  intro n
  induction n with
  | zero =>
    intro l hl hne
    obtain rfl := List.length_eq_zero.mp (Nat.le_zero.mp hl)
    exact absurd rfl hne
  | succ n ih =>
    intro l hl hne
    cases l with
    | nil => exact absurd rfl hne
    | cons a t =>
      rw [chunkList_cons]
      by_cases hle4 : (a :: t).length ≤ 4
      · have hdrop : (a :: t).drop 4 = [] := List.drop_eq_nil_of_le hle4
        rw [hdrop, chunkList_nil]
        refine ⟨(a :: t).take 4, by simp, ?_⟩
        rw [List.length_take, min_eq_right hle4]
        simp only [List.length_cons] at hle4 ⊢
        split_ifs <;> omega
      · have hdne : (a :: t).drop 4 ≠ [] := by
          intro hx
          have hlen0 : ((a :: t).drop 4).length = 0 := by rw [hx]; rfl
          simp only [List.length_drop, List.length_cons] at hlen0
          simp only [List.length_cons] at hle4
          omega
        have hlast : ((a :: t).take 4 :: chunkList ((a :: t).drop 4)).getLast? =
            (chunkList ((a :: t).drop 4)).getLast? := by
          obtain ⟨b, l2, hb⟩ := List.exists_cons_of_ne_nil (chunkList_ne_nil _ hdne)
          rw [hb, List.getLast?_cons_cons]
        rw [hlast]
        have hdlen : ((a :: t).drop 4).length ≤ n := by
          simp only [List.length_drop, List.length_cons]
          simp only [List.length_cons] at hl
          omega
        obtain ⟨ck, hc1, hc2⟩ := ih _ hdlen hdne
        refine ⟨ck, hc1, ?_⟩
        simp only [List.length_drop, List.length_cons] at hc2
        simp only [List.length_cons] at hle4 ⊢
        split_ifs at hc2 ⊢ <;> omega

lemma slideContent_length (templates : List TextItem) (hasPic : Bool)
    (chunk : List Row) : (slideContent templates hasPic chunk).length = 4 := by
  simp [slideContent]

lemma slideContent_getElem (templates : List TextItem) (hasPic : Bool)
    (chunk : List Row) (i : ℕ) (hi : i < 4) :
    (slideContent templates hasPic chunk)[i]? =
      some (quadrantContent templates hasPic chunk[i]?) := by
  simp [slideContent, List.getElem?_map, List.getElem?_range, hi]

lemma exceptMap_of_forall_ok {α β : Type} (f : α → Except String β) (g : α → β)
    (l : List α) (h : ∀ a, f a = Except.ok (g a)) :
    exceptMap f l = Except.ok (l.map g) := by
  induction l with
  | nil => rfl
  | cons a t ih =>
    rw [exceptMap, h a, ih]
    rfl

lemma renderQuadrant_not_broken (templates : List TextItem) (bg : Option BgStream)
    (hbg : bg ≠ some BgStream.broken) (row? : Option Row) :
    renderQuadrant templates bg row? = Except.ok (quadrantContent templates bg.isSome row?) := by
  cases row? with
  | none => rfl
  | some row =>
    match bg with
    | none => rfl
    | some BgStream.broken => exact absurd rfl hbg
    | some (BgStream.ready img) => rfl

lemma renderSlide_not_broken (templates : List TextItem) (bg : Option BgStream)
    (hbg : bg ≠ some BgStream.broken) (chunk : List Row) :
    renderSlide templates bg chunk =
      Except.ok (slideContent templates bg.isSome chunk) := by
  rw [renderSlide, slideContent]
  exact exceptMap_of_forall_ok _ _ _
    (fun i => renderQuadrant_not_broken templates bg hbg chunk[i]?)

lemma renderSlide_broken (templates : List TextItem) (chunk : List Row)
    (hch : chunk ≠ []) :
    renderSlide templates (some BgStream.broken) chunk =
      Except.error "UnrecognizedImageError" := by
  obtain ⟨r, chunk2, rfl⟩ := List.exists_cons_of_ne_nil hch
  rw [renderSlide, show List.range 4 = [0, 1, 2, 3] from rfl, exceptMap,
    List.getElem?_cons_zero]
  rfl

lemma generate_not_broken (data : CanvasData) (decode : String → Except String Img)
    (save : Img → Except String Unit)
    (hbg : process_background data.background_image_bytes decode save
      (compute_target_ratio data.canvas_aspect_ratio) ≠ some BgStream.broken) :
    generate_ppt data decode save =
      Except.ok ((chunkList data.excel_data).map
        (slideContent data.text_items
          (process_background data.background_image_bytes decode save
            (compute_target_ratio data.canvas_aspect_ratio)).isSome)) := by
  rw [generate_ppt]
  exact exceptMap_of_forall_ok _ _ _
    (fun ck => renderSlide_not_broken data.text_items _ hbg ck)

/-- C4 (corrected): whenever the background pipeline does not end in a failed
re-encode (in particular with no background or a decode-phase failure),
`generate_ppt` returns a document of exactly `ceil(N/4)` slides; on the last
slide the first `N mod 4` (or 4 for a positive multiple of 4) quadrants carry
a card for their row and every later quadrant is empty (no `add_picture`, no
`add_textbox`).  With a broken re-encode stream and at least one row the
program instead raises while filling the first quadrant and no pages are
produced (see the counterexample). -/
theorem generate_grid_partition_amended (data : CanvasData)
    (decode : String → Except String Img) (save : Img → Except String Unit)
    (hok : process_background data.background_image_bytes decode save
      (compute_target_ratio data.canvas_aspect_ratio) ≠ some BgStream.broken) :
    ∃ pages, generate_ppt data decode save = Except.ok pages ∧
      pages.length = (data.excel_data.length + 3) / 4 ∧
      (∀ lastSlide, pages.getLast? = some lastSlide →
        lastSlide.length = 4 ∧
        ∃ ck, (chunkList data.excel_data).getLast? = some ck ∧
          ck.length = (if data.excel_data.length % 4 = 0 then 4
            else data.excel_data.length % 4) ∧
          (∀ i, ck.length ≤ i → i < 4 →
            lastSlide[i]? = some { picture := false, texts := [] }) ∧
          (∀ i, i < ck.length → ∃ row, ck[i]? = some row ∧
            lastSlide[i]? = some
              { picture := (process_background data.background_image_bytes decode save
                    (compute_target_ratio data.canvas_aspect_ratio)).isSome,
                texts := data.text_items.map (fun t => resolve_text t row) })) := by
  refine ⟨_, generate_not_broken data decode save hok, ?_, ?_⟩
  · rw [List.length_map, chunkList_length]
  · intro lastSlide hlast
    rw [List.getLast?_map] at hlast
    obtain ⟨ck, hc, hrender⟩ := Option.map_eq_some'.mp hlast
    have hne : data.excel_data ≠ [] := by
      intro h0
      rw [h0, chunkList_nil] at hc
      exact absurd hc (by simp)
    obtain ⟨ck2, hc2, hlen⟩ := chunkList_getLast_len data.excel_data hne
    rw [hc] at hc2
    have hcc : ck = ck2 := by injection hc2
    subst hcc
    have hc4 : ck.length ≤ 4 := by
      split_ifs at hlen <;> omega
    refine ⟨by rw [← hrender, slideContent_length], ck, hc, hlen, ?_, ?_⟩
    · intro i hge hlt
      rw [← hrender, slideContent_getElem _ _ _ i hlt]
      have hnone : ck[i]? = none := List.getElem?_eq_none hge
      rw [hnone]
      rfl
    · intro i hlt
      have hlt4 : i < 4 := by omega
      have hsome : ∃ row, ck[i]? = some row := by
        cases hcg : ck[i]? with
        | none => exact absurd (List.getElem?_eq_none_iff.mp hcg) (by omega)
        | some row => exact ⟨row, rfl⟩
      obtain ⟨row, hrow⟩ := hsome
      refine ⟨row, hrow, ?_⟩
      rw [← hrender, slideContent_getElem _ _ _ i hlt4, hrow]
      rfl

/-- The spec's end-to-end example request: one `"title"` template, five data
rows, no background. -/
def exampleData : CanvasData :=
  { background_image_bytes := none,
    canvas_size_width := 1000,
    canvas_size_height := 1000,
    canvas_aspect_ratio := none,
    text_items := [⟨"title", "", ⟨0, 0⟩, 20, none, 0, false, none⟩],
    excel_data := [[("name", "Row1")], [("name", "Row2")], [("name", "Row3")],
      [("name", "Row4")], [("name", "Row5")]] }

/-- A decode oracle that always fails (PIL cannot identify the image, or the
base64 payload is invalid — both raise before the stream is assigned). -/
def decodeFail : String → Except String Img :=
  fun _ => Except.error "cannot identify image file"

/-- A save oracle that always succeeds. -/
def saveOk : Img → Except String Unit := fun _ => Except.ok ()

/-- A decode oracle for a background that opens fine as a 40 x 40 image. -/
def decodeOk40 : String → Except String Img := fun _ => Except.ok ⟨40, 40⟩

/-- A save oracle that always fails: `cropped_image.save` can raise, e.g.
when `original_image.format` names a read-only PIL format or a mode the
format cannot encode. -/
def saveFail : Img → Except String Unit :=
  fun _ => Except.error "cannot write mode P as JPEG"

/-- A one-row request whose background decodes but cannot be re-encoded. -/
def brokenBgData : CanvasData :=
  { exampleData with
    background_image_bytes := some "UGF5bG9hZA==",
    excel_data := [[("name", "Row1")]] }

/-- Evaluation of the broken-save request: the truthy broken stream reaches
the first `add_picture`, which raises, and the request aborts. -/
lemma generate_broken_eval :
    generate_ppt brokenBgData decodeOk40 saveFail =
      Except.error "UnrecognizedImageError" := by
  have hpb : process_background brokenBgData.background_image_bytes decodeOk40 saveFail
      (compute_target_ratio brokenBgData.canvas_aspect_ratio) = some BgStream.broken := rfl
  rw [generate_ppt, hpb]
  have hch : chunkList brokenBgData.excel_data = [[[("name", "Row1")]]] := by
    show chunkList [[("name", "Row1")]] = [[[("name", "Row1")]]]
    rw [chunkList_cons]
    simp [chunkList_nil]
  rw [hch, exceptMap, renderSlide_broken _ _ (by simp)]

/-- Witness for `generate_grid_partition_amended`: the 5-row no-background
example request yields 2 slides. -/
theorem generate_grid_partition_amended_w :
    ∃ pages, generate_ppt exampleData decodeFail saveOk = Except.ok pages ∧
      pages.length = 2 := by
  obtain ⟨pages, h1, h2, _⟩ := generate_grid_partition_amended exampleData decodeFail
    saveOk (fun h => Option.noConfusion h)
  exact ⟨pages, h1, h2.trans (by rfl)⟩

/-- C4 counterexample: a one-row request (ceil(1/4) = 1 page claimed) whose
background decodes but fails to re-encode makes `generate_ppt` raise instead
of producing any page. -/
theorem generate_grid_partition_cex :
    brokenBgData.excel_data.length = 1 ∧
    generate_ppt brokenBgData decodeOk40 saveFail =
      Except.error "UnrecognizedImageError" ∧
    (generate_ppt brokenBgData decodeOk40 saveFail).isOk = false := by
  refine ⟨rfl, generate_broken_eval, ?_⟩
  rw [generate_broken_eval]
  rfl

/-- C9 (corrected): a decode-phase failure (base64, `Image.open`, or anything
else raised before the stream is assigned on line 220) is non-fatal — the
stream stays `None` and generation completes with its `ceil(N/4)` slides and
no picture anywhere.  A re-encode (`save`) failure, however, leaves a truthy
broken `BytesIO` behind, and with at least one data row the first
`add_picture` raises an uncaught `UnrecognizedImageError`: the request fails
and no document is returned. -/
theorem background_failure_amended (data : CanvasData)
    (decode : String → Except String Img) (save : Img → Except String Unit)
    (s : String) (hbg : data.background_image_bytes = some s)
    (hs : s.isEmpty = false) :
    ((∃ e, decode s = Except.error e) →
      ∃ pages, generate_ppt data decode save = Except.ok pages ∧
        pages.length = (data.excel_data.length + 3) / 4 ∧
        ∀ slide ∈ pages, ∀ q ∈ slide, q.picture = false) ∧
    (∀ img e, decode s = Except.ok img →
      save (crop_image_to_ratio img
        (compute_target_ratio data.canvas_aspect_ratio)) = Except.error e →
      data.excel_data ≠ [] →
      generate_ppt data decode save = Except.error "UnrecognizedImageError") := by
  constructor
  · rintro ⟨e, he⟩
    have hpb : process_background data.background_image_bytes decode save
        (compute_target_ratio data.canvas_aspect_ratio) = none := by
      rw [hbg]
      simp only [process_background, hs]
      simp [he]
    have hok : process_background data.background_image_bytes decode save
        (compute_target_ratio data.canvas_aspect_ratio) ≠ some BgStream.broken := by
      rw [hpb]
      exact fun h => Option.noConfusion h
    refine ⟨_, generate_not_broken data decode save hok, ?_, ?_⟩
    · rw [List.length_map, chunkList_length]
    · intro slide hslide q hq
      obtain ⟨ck, hc, hrender⟩ := List.mem_map.mp hslide
      rw [hpb] at hrender
      rw [← hrender, slideContent] at hq
      obtain ⟨i, hi, hqi⟩ := List.mem_map.mp hq
      rw [← hqi]
      cases ck[i]? <;> rfl
  · intro img e hdec hsv hne
    have hpb : process_background data.background_image_bytes decode save
        (compute_target_ratio data.canvas_aspect_ratio) = some BgStream.broken := by
      rw [hbg]
      simp only [process_background, hs]
      simp [hdec, hsv]
    obtain ⟨r, rest, hrr⟩ := List.exists_cons_of_ne_nil hne
    rw [generate_ppt, hpb, hrr, chunkList_cons, exceptMap,
      renderSlide_broken _ _ (by simp)]

/-- The example request with a background string that will fail to decode. -/
def exampleDataBg : CanvasData :=
  { exampleData with background_image_bytes := some "AAAA" }

/-- Witness for `background_failure_amended`: the 5-row request with an
undecodable background still yields its 2 slides with no pictures, while the
1-row request whose background fails to re-encode aborts with
`UnrecognizedImageError`. -/
theorem background_failure_amended_w :
    (∃ pages, generate_ppt exampleDataBg decodeFail saveOk = Except.ok pages ∧
      pages.length = 2) ∧
    generate_ppt brokenBgData decodeOk40 saveFail =
      Except.error "UnrecognizedImageError" := by
  constructor
  · obtain ⟨pages, h1, h2, h3⟩ :=
      (background_failure_amended exampleDataBg decodeFail saveOk "AAAA" rfl rfl).1
        ⟨"cannot identify image file", rfl⟩
    exact ⟨pages, h1, h2.trans (by rfl)⟩
  · exact (background_failure_amended brokenBgData decodeOk40 saveFail "UGF5bG9hZA=="
      rfl rfl).2 ⟨40, 40⟩ "cannot write mode P as JPEG" rfl rfl
      (fun h => List.noConfusion h)

/-- C9 counterexample: this request's background decodes and fails only at
re-encode, yet generation does not complete — it aborts with the uncaught
`UnrecognizedImageError` instead of returning a picture-less document. -/
theorem background_failure_cex :
    decodeOk40 "UGF5bG9hZA==" = Except.ok ⟨40, 40⟩ ∧
    saveFail (crop_image_to_ratio ⟨40, 40⟩
      (compute_target_ratio brokenBgData.canvas_aspect_ratio)) =
        Except.error "cannot write mode P as JPEG" ∧
    (generate_ppt brokenBgData decodeOk40 saveFail).isOk = false := by
  refine ⟨rfl, rfl, ?_⟩
  rw [generate_broken_eval]
  rfl

end CardPpt
